import Mathlib

set_option maxHeartbeats 2000000
set_option maxRecDepth 16384

/-!
Verification of the register access and decoding engine of the iDM heat-pump
Modbus integration.  The definitions below are a shallow embedding of
`custom_components/idm_heatpump/const.py`, `coordinator.py` and `number.py`:

* the register catalog `REGISTERS` with address, data type, access type,
  bounds, state class and option labels;
* the wire codec (IEEE-754 binary32 decode/encode over pairs of 16-bit
  words, exact values represented as rationals);
* the typed read/write accessors with bounds clamping and 8-bit masking;
* the poll cycle `fetch_data`, including sentinel suppression, the
  negative-energy clamp, derived string labels and the derived HVAC state
  and mode, with Python exceptions modelled by `Except`.

Machine integers are `Nat`/`Int`; register words are naturals below `2 ^ 16`;
decoded float values are exact rationals built with `mkRat` (every finite
binary32 value is dyadic, hence exactly representable).
-/

namespace IdmHeatpump

/-- `DataType` from `const.py`: the wire type of a register. -/
inductive DataType
  | UCHAR
  | WORD
  | FLOAT
  | INT
deriving DecidableEq

/-- `AccessType` from `const.py`. -/
inductive AccessType
  | RO
  | RW
deriving DecidableEq

/-- Sensor state class of a register (`SensorStateClass` values used in
`const.py`): an instantaneous measurement or a monotonically increasing
total. -/
inductive StateClass
  | measurement
  | total_increasing
deriving DecidableEq

/-- `RegisterDefinition` from `const.py`, restricted to the fields the
core register engine reads (presentation-only metadata such as `name`,
`unit`, `device_class`, `icon` is not consumed by the coordinator logic
modelled here). -/
structure RegisterDefinition where
  address : Nat
  data_type : DataType
  access_type : AccessType
  min_value : Option ℚ := none
  max_value : Option ℚ := none
  state_class : Option StateClass := none
  options : List (Nat × String) := []
deriving DecidableEq

/-! ## Wire codec

`_read_float_by_address` combines the two 16-bit words returned by the bus
as `combined = (registers[1] << 16) | registers[0]` and reinterprets the
32-bit pattern as a big-endian IEEE-754 single
(`struct.unpack('!f', struct.pack('!I', combined))`).  `struct.pack('!I', c)`
raises for `c ≥ 2 ^ 32`; that exception is caught and surfaces as `None`. -/

/-- `combined = (w1 << 16) | w0`: low word first, as the controller returns
float halves on a read. -/
def combineWords (w0 w1 : Nat) : Nat := (w1 <<< 16) ||| w0

/-- Exponent field (bits 23-30) of a 32-bit IEEE-754 single pattern. -/
def expBits (c : Nat) : Nat := c / 2 ^ 23 % 2 ^ 8

/-- Fraction field (bits 0-22) of a 32-bit IEEE-754 single pattern. -/
def fracBits (c : Nat) : Nat := c % 2 ^ 23

/-- Sign bit (bit 31) of a 32-bit IEEE-754 single pattern. -/
def signBit (c : Nat) : Nat := c / 2 ^ 31 % 2

/-- A binary32 pattern denotes NaN or an infinity exactly when its exponent
field is all ones; `math.isnan(value) or math.isinf(value)` on the unpacked
float is equivalent to this test on the pattern. -/
def isNanOrInf (c : Nat) : Bool := expBits c == 255

/-- Integer significand of a binary32 pattern: `2 ^ 23 + frac` for normal
numbers, `2 * frac` for subnormals (so that in both cases the denoted value
is `significand * 2 ^ (expBits - 150)`, reading `expBits = 0` subnormals at
exponent `0`). -/
def significand (c : Nat) : Nat :=
  if expBits c = 0 then 2 * fracBits c else 2 ^ 23 + fracBits c

/-- Exact rational value of a finite binary32 pattern:
`(-1) ^ sign * significand * 2 ^ (expBits - 150)`. -/
def b32toRat (c : Nat) : ℚ :=
  let m : ℤ := if signBit c = 1 then -(significand c : ℤ) else (significand c : ℤ)
  if 150 ≤ expBits c then mkRat (m * 2 ^ (expBits c - 150)) 1
  else mkRat m (2 ^ (150 - expBits c))

/-- Decode the word list of one float bus read (`_read_float_by_address`
after a successful transaction): `None` when fewer than two words came
back, when `struct.pack('!I', combined)` would raise (words out of the
16-bit range), or when the decoded float is NaN or infinite. -/
def decode_float_words (regs : List Nat) : Option ℚ :=
  match regs with
  | w0 :: w1 :: _ =>
    let combined := combineWords w0 w1
    if 2 ^ 32 ≤ combined then none
    else if isNanOrInf combined then none
    else some (b32toRat combined)
  | _ => none

/-- `_write_float_by_address`: split the 32-bit pattern into
`[(combined >> 16) & 0xFFFF, combined & 0xFFFF]` — high word first, the
opposite order from the read path. -/
def encode_float (c : Nat) : List Nat :=
  [(c >>> 16) &&& 0xFFFF, c &&& 0xFFFF]

/-! ## Register catalog

The `REGISTERS` dictionary of `const.py`, as an association list in
insertion order (Python dicts preserve it and `_fetch_data` iterates in
that order). -/

/-- The register catalog from `const.py`. -/
def REGISTERS : List (String × RegisterDefinition) := [
  ("outside_temp",
     { address := 1000,
       data_type := .FLOAT,
       access_type := .RO,
       min_value := some (-50),
       max_value := some 50,
       state_class := some .measurement }),
  ("outside_temp_averaged",
     { address := 1002,
       data_type := .FLOAT,
       access_type := .RO,
       min_value := some (-50),
       max_value := some 50,
       state_class := some .measurement }),
  ("internal_message",
     { address := 1004,
       data_type := .WORD,
       access_type := .RO }),
  ("system_mode",
     { address := 1005,
       data_type := .WORD,
       access_type := .RW,
       min_value := some 0,
       max_value := some 5,
       options := [(0, "Standby"), (1, "Automatic"), (2, "Away"), (4, "DHW Only"), (5, "Heating/Cooling Only")] }),
  ("smart_grid_status",
     { address := 1006,
       data_type := .WORD,
       access_type := .RO }),
  ("buffer_temp",
     { address := 1008,
       data_type := .FLOAT,
       access_type := .RO,
       min_value := some 0,
       max_value := some 100,
       state_class := some .measurement }),
  ("cooling_buffer_temp",
     { address := 1010,
       data_type := .FLOAT,
       access_type := .RO,
       min_value := some 0,
       max_value := some 100,
       state_class := some .measurement }),
  ("dhw_temp_bottom",
     { address := 1012,
       data_type := .FLOAT,
       access_type := .RO,
       min_value := some 0,
       max_value := some 100,
       state_class := some .measurement }),
  ("dhw_temp_top",
     { address := 1014,
       data_type := .FLOAT,
       access_type := .RO,
       min_value := some 0,
       max_value := some 100,
       state_class := some .measurement }),
  ("dhw_outlet_temp",
     { address := 1030,
       data_type := .FLOAT,
       access_type := .RO,
       min_value := some 0,
       max_value := some 100,
       state_class := some .measurement }),
  ("dhw_target_temp",
     { address := 1032,
       data_type := .UCHAR,
       access_type := .RW,
       min_value := some 35,
       max_value := some 95,
       state_class := some .measurement }),
  ("dhw_on_temp",
     { address := 1033,
       data_type := .UCHAR,
       access_type := .RW,
       min_value := some 35,
       max_value := some 95 }),
  ("dhw_off_temp",
     { address := 1034,
       data_type := .UCHAR,
       access_type := .RW,
       min_value := some 35,
       max_value := some 95 }),
  ("heat_pump_flow_temp",
     { address := 1050,
       data_type := .FLOAT,
       access_type := .RO,
       min_value := some 0,
       max_value := some 100,
       state_class := some .measurement }),
  ("heat_pump_return_temp",
     { address := 1052,
       data_type := .FLOAT,
       access_type := .RO,
       min_value := some 0,
       max_value := some 100,
       state_class := some .measurement }),
  ("hgl_flow_temp",
     { address := 1054,
       data_type := .FLOAT,
       access_type := .RO,
       min_value := some 0,
       max_value := some 100,
       state_class := some .measurement }),
  ("source_inlet_temp",
     { address := 1056,
       data_type := .FLOAT,
       access_type := .RO,
       min_value := some (-20),
       max_value := some 50,
       state_class := some .measurement }),
  ("source_outlet_temp",
     { address := 1058,
       data_type := .FLOAT,
       access_type := .RO,
       min_value := some (-20),
       max_value := some 50,
       state_class := some .measurement }),
  ("air_intake_temp",
     { address := 1060,
       data_type := .FLOAT,
       access_type := .RO,
       min_value := some (-50),
       max_value := some 50,
       state_class := some .measurement }),
  ("heat_pump_mode",
     { address := 1090,
       data_type := .WORD,
       access_type := .RO,
       options := [(0, "Off"), (1, "Heating"), (2, "Cooling"), (4, "DHW"), (8, "Defrosting")] }),
  ("heating_demand",
     { address := 1091,
       data_type := .WORD,
       access_type := .RW,
       min_value := some 0,
       max_value := some 1 }),
  ("cooling_demand",
     { address := 1092,
       data_type := .WORD,
       access_type := .RW,
       min_value := some 0,
       max_value := some 1 }),
  ("dhw_demand",
     { address := 1093,
       data_type := .WORD,
       access_type := .RW,
       min_value := some 0,
       max_value := some 1 }),
  ("evu_contact",
     { address := 1098,
       data_type := .WORD,
       access_type := .RO,
       min_value := some 0,
       max_value := some 1 }),
  ("error_state",
     { address := 1099,
       data_type := .WORD,
       access_type := .RW }),
  ("compressor1_status",
     { address := 1100,
       data_type := .WORD,
       access_type := .RO,
       min_value := some 0,
       max_value := some 1 }),
  ("compressor2_status",
     { address := 1101,
       data_type := .WORD,
       access_type := .RO,
       min_value := some 0,
       max_value := some 1 }),
  ("loading_pump_status",
     { address := 1104,
       data_type := .WORD,
       access_type := .RO,
       min_value := some 0,
       max_value := some 1 }),
  ("source_pump_status",
     { address := 1105,
       data_type := .WORD,
       access_type := .RO,
       min_value := some 0,
       max_value := some 1 }),
  ("groundwater_pump_status",
     { address := 1106,
       data_type := .WORD,
       access_type := .RO,
       min_value := some 0,
       max_value := some 1 }),
  ("valve_circuit_heat_cool",
     { address := 1110,
       data_type := .WORD,
       access_type := .RO,
       min_value := some 0,
       max_value := some 1 }),
  ("valve_buffer_heat_cool",
     { address := 1111,
       data_type := .WORD,
       access_type := .RO,
       min_value := some 0,
       max_value := some 1 }),
  ("valve_heating_dhw",
     { address := 1112,
       data_type := .WORD,
       access_type := .RO,
       min_value := some 0,
       max_value := some 1 }),
  ("heating_circuit_a_temp",
     { address := 1350,
       data_type := .FLOAT,
       access_type := .RO,
       min_value := some 0,
       max_value := some 100,
       state_class := some .measurement }),
  ("heating_circuit_b_temp",
     { address := 1352,
       data_type := .FLOAT,
       access_type := .RO,
       min_value := some 0,
       max_value := some 100,
       state_class := some .measurement }),
  ("heating_circuit_a_room_temp",
     { address := 1364,
       data_type := .FLOAT,
       access_type := .RO,
       min_value := some 0,
       max_value := some 40,
       state_class := some .measurement }),
  ("heating_circuit_b_room_temp",
     { address := 1366,
       data_type := .FLOAT,
       access_type := .RO,
       min_value := some 0,
       max_value := some 40,
       state_class := some .measurement }),
  ("heating_circuit_a_target_temp",
     { address := 1378,
       data_type := .FLOAT,
       access_type := .RO,
       min_value := some 0,
       max_value := some 40,
       state_class := some .measurement }),
  ("heating_circuit_b_target_temp",
     { address := 1380,
       data_type := .FLOAT,
       access_type := .RO,
       min_value := some 0,
       max_value := some 40,
       state_class := some .measurement }),
  ("humidity",
     { address := 1392,
       data_type := .FLOAT,
       access_type := .RO,
       min_value := some 0,
       max_value := some 100,
       state_class := some .measurement }),
  ("heating_circuit_mode",
     { address := 1393,
       data_type := .WORD,
       access_type := .RW,
       options := [(0, "Off"), (1, "Schedule"), (2, "Normal"), (3, "Eco"), (4, "Manual Heating"), (5, "Manual Cooling")] }),
  ("heating_circuit_active_mode",
     { address := 1498,
       data_type := .WORD,
       access_type := .RO }),
  ("external_room_temp_a",
     { address := 1650,
       data_type := .FLOAT,
       access_type := .RO,
       min_value := some 0,
       max_value := some 40,
       state_class := some .measurement }),
  ("external_room_temp_b",
     { address := 1652,
       data_type := .FLOAT,
       access_type := .RO,
       min_value := some 0,
       max_value := some 40,
       state_class := some .measurement }),
  ("external_outside_temp",
     { address := 1690,
       data_type := .FLOAT,
       access_type := .RO,
       min_value := some (-50),
       max_value := some 50,
       state_class := some .measurement }),
  ("external_humidity",
     { address := 1692,
       data_type := .FLOAT,
       access_type := .RO,
       min_value := some 0,
       max_value := some 100,
       state_class := some .measurement }),
  ("target_temp_heating",
     { address := 1694,
       data_type := .FLOAT,
       access_type := .RW,
       min_value := some 15,
       max_value := some 30,
       state_class := some .measurement }),
  ("target_temp_cooling",
     { address := 1695,
       data_type := .WORD,
       access_type := .RW,
       min_value := some 15,
       max_value := some 30,
       state_class := some .measurement }),
  ("energy_heating",
     { address := 1748,
       data_type := .FLOAT,
       access_type := .RO,
       min_value := some 0,
       max_value := some 1000000,
       state_class := some .total_increasing }),
  ("energy_total",
     { address := 1750,
       data_type := .FLOAT,
       access_type := .RO,
       min_value := some 0,
       max_value := some 1000000,
       state_class := some .total_increasing }),
  ("energy_cooling",
     { address := 1752,
       data_type := .FLOAT,
       access_type := .RO,
       min_value := some 0,
       max_value := some 1000000,
       state_class := some .total_increasing }),
  ("energy_dhw",
     { address := 1754,
       data_type := .FLOAT,
       access_type := .RO,
       min_value := some 0,
       max_value := some 1000000,
       state_class := some .total_increasing }),
  ("defrosting_energy",
     { address := 1756,
       data_type := .FLOAT,
       access_type := .RO,
       min_value := some 0,
       max_value := some 1000000,
       state_class := some .total_increasing }),
  ("passive_cooling_energy",
     { address := 1758,
       data_type := .FLOAT,
       access_type := .RO,
       min_value := some 0,
       max_value := some 1000000,
       state_class := some .total_increasing }),
  ("solar_energy",
     { address := 1760,
       data_type := .FLOAT,
       access_type := .RO,
       min_value := some 0,
       max_value := some 1000000,
       state_class := some .total_increasing }),
  ("electric_heating_energy",
     { address := 1762,
       data_type := .FLOAT,
       access_type := .RO,
       min_value := some 0,
       max_value := some 1000000,
       state_class := some .total_increasing }),
  ("current_power",
     { address := 1790,
       data_type := .FLOAT,
       access_type := .RO,
       min_value := some 0,
       max_value := some 20,
       state_class := some .measurement }),
  ("solar_current_power",
     { address := 1792,
       data_type := .FLOAT,
       access_type := .RO,
       min_value := some 0,
       max_value := some 20,
       state_class := some .measurement }),
  ("solar_collector_temp",
     { address := 1850,
       data_type := .FLOAT,
       access_type := .RO,
       min_value := some (-20),
       max_value := some 150,
       state_class := some .measurement }),
  ("solar_collector_return_temp",
     { address := 1852,
       data_type := .FLOAT,
       access_type := .RO,
       min_value := some (-20),
       max_value := some 150,
       state_class := some .measurement }),
  ("solar_loading_temp",
     { address := 1854,
       data_type := .FLOAT,
       access_type := .RO,
       min_value := some (-20),
       max_value := some 150,
       state_class := some .measurement }),
  ("glt_heat_storage_temp",
     { address := 1716,
       data_type := .FLOAT,
       access_type := .RO,
       min_value := some 0,
       max_value := some 100,
       state_class := some .measurement }),
  ("glt_cold_storage_temp",
     { address := 1718,
       data_type := .FLOAT,
       access_type := .RO,
       min_value := some 0,
       max_value := some 100,
       state_class := some .measurement }),
  ("glt_dhw_bottom_temp",
     { address := 1720,
       data_type := .FLOAT,
       access_type := .RO,
       min_value := some 0,
       max_value := some 100,
       state_class := some .measurement }),
  ("glt_dhw_top_temp",
     { address := 1722,
       data_type := .FLOAT,
       access_type := .RO,
       min_value := some 0,
       max_value := some 100,
       state_class := some .measurement }),
  ("pv_surplus",
     { address := 74,
       data_type := .FLOAT,
       access_type := .RO,
       min_value := some 0,
       max_value := some 20,
       state_class := some .measurement }),
  ("e_heizstab_power",
     { address := 76,
       data_type := .FLOAT,
       access_type := .RO,
       min_value := some 0,
       max_value := some 20,
       state_class := some .measurement }),
  ("pv_production",
     { address := 78,
       data_type := .FLOAT,
       access_type := .RO,
       min_value := some 0,
       max_value := some 20,
       state_class := some .measurement }),
  ("heat_pump_power_consumption",
     { address := 4122,
       data_type := .FLOAT,
       access_type := .RO,
       min_value := some 0,
       max_value := some 20,
       state_class := some .measurement }),
  ("thermal_output",
     { address := 4126,
       data_type := .FLOAT,
       access_type := .RO,
       min_value := some 0,
       max_value := some 25,
       state_class := some .measurement }),
  ("energy_meter_total",
     { address := 4128,
       data_type := .FLOAT,
       access_type := .RO,
       min_value := some 0,
       max_value := some 1000000,
       state_class := some .total_increasing })]
/-! ## Register accessor

The bus transport is the external `ModbusTcpClient`: a request
`read_input_registers(address, count)` either yields a word list or fails
(error response, transport exception, closed connection).  We model it as a
function from address and count to `Option (List Nat)`, `none` covering
every per-call failure. -/

/-- The bus transport: `read address count` returns the word list of a
successful transaction, or `none` on any error. -/
def Bus := Nat → Nat → Option (List Nat)

/-- `_read_float_by_address`: one two-word bus read, decoded; every failure
path (error result, exception, short reply, NaN/infinite value) returns
`None`. -/
def read_float_by_address (bus : Bus) (address : Nat) : Option ℚ :=
  match bus address 2 with
  | none => none
  | some regs => decode_float_words regs

/-- `_read_uint16_by_address`: one one-word bus read; `registers[0]`
(an `IndexError` on an empty reply is caught and yields `None`). -/
def read_uint16_by_address (bus : Bus) (address : Nat) : Option Nat :=
  match bus address 1 with
  | none => none
  | some regs => regs.head?

/-- Bounds clamping shared by `write_uint16`, `write_uchar` and
`write_float`: first raise to `min_value` if below it, then lower the
result to `max_value` if above it. -/
def clampBounds (mn mx : Option ℚ) (v : ℚ) : ℚ :=
  let v1 := match mn with
    | some m => if v < m then m else v
    | none => v
  match mx with
  | some m => if m < v1 then m else v1
  | none => v1

/-- Python's `value & 0xFF`: defined (as `value mod 256`) when `value` is an
integer, a `TypeError` (`none`) otherwise. -/
def pyAnd255 (q : ℚ) : Option ℚ :=
  if q.den = 1 then some (mkRat (q.num % 256) 1) else none

/-- Result of a write accessor: `rejected` models the early `return False`
paths (wrong data type, read-only register), `written w` means the value `w`
is passed to the wire write, `error` models an uncaught `TypeError` from
masking a non-integer. -/
inductive WriteOutcome
  | rejected
  | written (w : ℚ)
  | error
deriving DecidableEq

/-- `write_uint16` of `coordinator.py` (the value transformation before
`_write_uint16_by_address`): rejects non-`WORD`/`UCHAR` and read-only
registers, clamps to the declared bounds, and masks to 8 bits afterwards
when the register is `UCHAR` and the clamped value still exceeds 255. -/
def write_uint16 (reg : RegisterDefinition) (value : ℚ) : WriteOutcome :=
  if reg.data_type ≠ DataType.WORD ∧ reg.data_type ≠ DataType.UCHAR then .rejected
  else if reg.access_type ≠ AccessType.RW then .rejected
  else
    let v := clampBounds reg.min_value reg.max_value value
    if reg.data_type = DataType.UCHAR ∧ 255 < v then
      match pyAnd255 v with
      | some w => .written w
      | none => .error
    else .written v

/-- `write_uchar` of `coordinator.py`: rejects non-`UCHAR` and read-only
registers, clamps to the declared bounds, then masks to 8 bits if the
clamped value still exceeds 255. -/
def write_uchar (reg : RegisterDefinition) (value : ℚ) : WriteOutcome :=
  if reg.data_type ≠ DataType.UCHAR then .rejected
  else if reg.access_type ≠ AccessType.RW then .rejected
  else
    let v := clampBounds reg.min_value reg.max_value value
    if 255 < v then
      match pyAnd255 v with
      | some w => .written w
      | none => .error
    else .written v

/-- `write_float` of `coordinator.py` (value transformation before
`_write_float_by_address`): rejects non-`FLOAT` and read-only registers,
clamps to the declared bounds. -/
def write_float (reg : RegisterDefinition) (value : ℚ) : WriteOutcome :=
  if reg.data_type ≠ DataType.FLOAT then .rejected
  else if reg.access_type ≠ AccessType.RW then .rejected
  else .written (clampBounds reg.min_value reg.max_value value)

/-- Python's `int(value)` on a number: truncation toward zero. -/
def pyInt (q : ℚ) : ℤ := q.num.tdiv q.den

/-- `IdmUCharNumber.async_set_native_value` in `number.py`: the requested
value is converted with `int(value) & 0xFF` (for an `int`, `mod 256`)
*before* being handed to `write_uchar`. -/
def ucharNumberSetValue (reg : RegisterDefinition) (value : ℚ) : WriteOutcome :=
  write_uchar reg (mkRat (pyInt value % 256) 1)

/-! ## Poll cycle

`_fetch_data` builds the snapshot dictionary: one typed read per catalog
entry with sentinel suppression, the negative-energy clamp over a fixed key
list, derived `"<key>_str"` labels, and the derived `hvac_state` and
`hvac_mode`.  The whole body runs inside `try: ... except Exception:
return {}`, so the function never raises; an uncaught exception inside the
body (modelled with `Except`) yields the empty snapshot. -/

/-- `HVACAction` values used by the coordinator. -/
inductive HAction
  | off
  | heating
  | cooling
  | idle
deriving DecidableEq

/-- `HVACMode` values used by the coordinator. -/
inductive HMode
  | off
  | heat
  | cool
  | auto
deriving DecidableEq

/-- A value stored in the snapshot dictionary: a number, a derived string
label, or a derived HVAC action/mode. -/
inductive Value
  | num (q : ℚ)
  | label (s : String)
  | act (a : HAction)
  | mode (m : HMode)
deriving DecidableEq

/-- The snapshot: the `data` dictionary of `_fetch_data`, in insertion
order; an entry `(k, none)` is a key present with value `None`. -/
abbrev Snapshot := List (String × Option Value)

/-- Python dictionary lookup (`key in d` / `d[key]` / `d.get(key)`) on an
association list: the first entry with the given key. -/
def lookupKey {α : Type} : List (String × α) → String → Option α
  | [], _ => none
  | (a, b) :: t, k => if k = a then some b else lookupKey t k

/-- `reg_def.min_value is not None and reg_def.min_value >= 0`: the
register is declared logically non-negative. -/
def nonnegMin (reg : RegisterDefinition) : Bool :=
  match reg.min_value with
  | some m => 0 ≤ m
  | none => false

/-- Sentinel policy for a `FLOAT` register (`_fetch_data`): a decoded value
of exactly `-1` becomes `None` when the register has a non-negative
declared minimum; a failed read is already `None`. -/
def applyFloatSentinel (reg : RegisterDefinition) (v : Option ℚ) : Option ℚ :=
  match v with
  | some x => if x = -1 ∧ nonnegMin reg then none else some x
  | none => none

/-- Sentinel policy for a `WORD` register (`_fetch_data`): a read word of
`65535` becomes `None` when the register has a non-negative declared
minimum.  (The Python test is `value in [65535, -1]`; a register word is
in `0..65535`, so the `-1` alternative can never match.) -/
def applyWordSentinel (reg : RegisterDefinition) (v : Option Nat) : Option ℚ :=
  match v with
  | some w => if w = 65535 ∧ nonnegMin reg then none else some (mkRat w 1)
  | none => none

/-- Sentinel policy for a `UCHAR` register (`_fetch_data`), applied to the
already-masked byte: `255` becomes `None` when the register has a
non-negative declared minimum. -/
def applyUCharSentinel (reg : RegisterDefinition) (m : Nat) : Option ℚ :=
  if m = 255 ∧ nonnegMin reg then none else some (mkRat m 1)

/-- One iteration of the register read loop of `_fetch_data`.  The `UCHAR`
branch is `self._read_uint16_by_address(...) & 0xFF` with no `None` check:
when the read fails it evaluates `None & 0xFF`, raising a `TypeError`
(`Except.error`); the loop then aborts.  `INT` has no branch, so such a
register would be skipped.  Once an error occurs it propagates. -/
def fetchStep (bus : Bus) (acc : Except Unit Snapshot)
    (kv : String × RegisterDefinition) : Except Unit Snapshot :=
  match acc with
  | .error e => .error e
  | .ok data =>
    match kv.2.data_type with
    | .FLOAT =>
      .ok (data ++ [(kv.1, (applyFloatSentinel kv.2
        (read_float_by_address bus kv.2.address)).map Value.num)])
    | .WORD =>
      .ok (data ++ [(kv.1, (applyWordSentinel kv.2
        (read_uint16_by_address bus kv.2.address)).map Value.num)])
    | .UCHAR =>
      match read_uint16_by_address bus kv.2.address with
      | none => .error ()
      | some w =>
        .ok (data ++ [(kv.1, (applyUCharSentinel kv.2 (w &&& 255)).map Value.num)])
    | .INT => .ok data

/-- The register read loop of `_fetch_data` over the whole catalog. -/
def fetchLoop (bus : Bus) : Except Unit Snapshot :=
  REGISTERS.foldl (fetchStep bus) (.ok [])

/-- The fixed key list of the negative-energy safety check in
`_fetch_data`. -/
def energyClampKeys : List String :=
  ["energy_heating", "energy_cooling", "energy_dhw", "energy_total",
   "energy_meter_total"]

/-- Replace the value of every entry named `k` (Python's
`data[key] = value` on an existing key keeps its position). -/
def setKey (d : Snapshot) (k : String) (v : Option Value) : Snapshot :=
  d.map fun p => if p.1 = k then (p.1, v) else p

/-- One iteration of the negative-energy loop: if `key` is present, not
`None` and negative, replace it by `0`. -/
def clampOne (d : Snapshot) (k : String) : Snapshot :=
  match lookupKey d k with
  | some (some (Value.num q)) => if q < 0 then setKey d k (some (Value.num 0)) else d
  | _ => d

/-- The negative-energy safety check of `_fetch_data`: only the five keys
of `energyClampKeys` are inspected. -/
def applyEnergyClamp (d : Snapshot) : Snapshot :=
  energyClampKeys.foldl clampOne d

/-- `reg_def.options.get(raw, "Unknown")` with Python's cross-type numeric
equality between the stored number and the integer option keys. -/
def optionsLookup (opts : List (Nat × String)) (q : ℚ) : String :=
  match opts.find? (fun p => mkRat p.1 1 = q) with
  | some p => p.2
  | none => "Unknown"

/-- The derived-label loop of `_fetch_data`: for every catalog entry with a
non-empty `options` mapping whose snapshot value is present, append
`"<key>_str"` with the label lookup. -/
def appendStrLabels (d : Snapshot) : Snapshot :=
  REGISTERS.foldl (fun d kv =>
    if kv.2.options ≠ [] then
      match lookupKey d kv.1 with
      | some (some (Value.num q)) =>
        d ++ [(kv.1 ++ "_str", some (Value.label (optionsLookup kv.2.options q)))]
      | _ => d
    else d) d

/-- `data.get(key)` as a number: the stored numeric value, if the key is
present and not `None`. -/
def getNum (d : Snapshot) (k : String) : Option ℚ :=
  match lookupKey d k with
  | some (some (Value.num q)) => some q
  | _ => none

/-- `hvac_state` derivation of `_fetch_data` from `heat_pump_mode`:
`0 → OFF`, `1 → HEATING`, `2 → COOLING`, anything else (including an
absent or `None` reading) → `IDLE`. -/
def deriveHvacState (hpm : Option ℚ) : HAction :=
  if hpm = some 0 then .off
  else if hpm = some 1 then .heating
  else if hpm = some 2 then .cooling
  else .idle

/-- `hvac_mode` derivation of `_fetch_data` from `system_mode` and
`heat_pump_mode`: standby (`0`) → `OFF`; automatic (`1`) and
heating/cooling-only (`5`) → `HEAT`/`COOL` by current activity, else
`AUTO`; any other system mode (including an absent or `None` reading)
→ `OFF`. -/
def deriveHvacMode (sm hpm : Option ℚ) : HMode :=
  if sm = some 0 then .off
  else if sm = some 1 then
    if hpm = some 1 then .heat
    else if hpm = some 2 then .cool
    else .auto
  else if sm = some 5 then
    if hpm = some 1 then .heat
    else if hpm = some 2 then .cool
    else .auto
  else .off

/-- `_fetch_data`: the full poll cycle.  Any uncaught exception in the body
(the `TypeError` of the `UCHAR` branch) is caught by the surrounding
`except Exception: return {}`, producing the empty snapshot; the function
itself never raises. -/
def fetch_data (bus : Bus) : Snapshot :=
  match fetchLoop bus with
  | .error _ => []
  | .ok data =>
    let data := applyEnergyClamp data
    let data := appendStrLabels data
    let hpm := getNum data "heat_pump_mode"
    let data := data ++ [("hvac_state", some (Value.act (deriveHvacState hpm)))]
    let sm := getNum data "system_mode"
    let data := data ++ [("hvac_mode", some (Value.mode (deriveHvacMode sm hpm)))]
    data

/-! ## Helper lemmas -/

/-- Masking with `0xFFFF` is reduction modulo `2 ^ 16`. -/
lemma and_ffff_eq_mod (n : Nat) : n &&& 0xFFFF = n % 2 ^ 16 := by
  have h : (0xFFFF : Nat) = 2 ^ 16 - 1 := by norm_num
  rw [h, Nat.and_pow_two_sub_one_eq_mod]

/-- Recombining the two 16-bit halves of a 32-bit value in read order
recovers the value. -/
lemma combineWords_split (c : Nat) : combineWords (c % 2 ^ 16) (c >>> 16) = c := by
  apply Nat.eq_of_testBit_eq
  intro i
  simp only [combineWords, Nat.testBit_lor, Nat.testBit_shiftLeft,
    Nat.testBit_shiftRight, Nat.testBit_mod_two_pow]
  by_cases h : i < 16
  · have h' : ¬ 16 ≤ i := Nat.not_le.mpr h
    simp [h, h']
  · have h16 : 16 ≤ i := Nat.not_lt.mp h
    have : 16 + (i - 16) = i := by omega
    simp [h, h16, this]

/-- The high half of a 32-bit value fits in 16 bits. -/
lemma shiftRight16_lt (c : Nat) (h : c < 2 ^ 32) : c >>> 16 < 2 ^ 16 := by
  rw [Nat.shiftRight_eq_div_pow]
  have : c < 2 ^ 16 * 2 ^ 16 := by norm_num at h ⊢; omega
  exact Nat.div_lt_of_lt_mul this

/-- Two 16-bit words combine into a 32-bit value. -/
lemma combineWords_lt (w0 w1 : Nat) (h0 : w0 < 2 ^ 16) (h1 : w1 < 2 ^ 16) :
    combineWords w0 w1 < 2 ^ 32 := by
  apply Nat.lt_pow_two_of_testBit
  intro i hi
  simp only [combineWords, Nat.testBit_lor, Nat.testBit_shiftLeft]
  have e0 : w0.testBit i = false :=
    Nat.testBit_eq_false_of_lt (lt_of_lt_of_le h0 (Nat.pow_le_pow_right (by norm_num) (by omega)))
  have e1 : w1.testBit (i - 16) = false :=
    Nat.testBit_eq_false_of_lt (lt_of_lt_of_le h1 (Nat.pow_le_pow_right (by norm_num) (by omega)))
  simp [e0, e1]

/-! ## Claims about the wire codec -/

/-- Claim C1: for a two-word bus reply `[w0, w1]`, float decode reconstructs
`combined = (w1 << 16) | w0` and reinterprets the pattern as an IEEE-754
single, returning no value exactly when the pattern is NaN or infinite; a
reply of fewer than two words also decodes to no value. -/
theorem float_decode_words_spec (w0 w1 : Nat) (h0 : w0 < 2 ^ 16) (h1 : w1 < 2 ^ 16) :
    (decode_float_words [w0, w1] = none ↔ isNanOrInf (combineWords w0 w1) = true)
    ∧ (isNanOrInf (combineWords w0 w1) = false →
        decode_float_words [w0, w1] = some (b32toRat (combineWords w0 w1)))
    ∧ (∀ regs : List Nat, regs.length < 2 → decode_float_words regs = none) := by
  have hlt : ¬ 2 ^ 32 ≤ combineWords w0 w1 :=
    Nat.not_le.mpr (combineWords_lt w0 w1 h0 h1)
  refine ⟨?_, ?_, ?_⟩
  · simp only [decode_float_words, if_neg hlt]
    by_cases hnan : isNanOrInf (combineWords w0 w1) <;> simp [hnan]
  · intro hfin
    simp only [decode_float_words, if_neg hlt, hfin]
    simp
  · intro regs hlen
    match regs, hlen with
    | [], _ => rfl
    | [w], _ => rfl

/-- Witness for C1 at the pattern of `1.0` (`w0 = 0x0000`, `w1 = 0x3F80`). -/
theorem float_decode_words_spec_witness :
    (0 : Nat) < 2 ^ 16 ∧ (16256 : Nat) < 2 ^ 16
    ∧ ((decode_float_words [0, 16256] = none ↔ isNanOrInf (combineWords 0 16256) = true)
      ∧ (isNanOrInf (combineWords 0 16256) = false →
          decode_float_words [0, 16256] = some (b32toRat (combineWords 0 16256)))
      ∧ (∀ regs : List Nat, regs.length < 2 → decode_float_words regs = none)) :=
  ⟨by norm_num, by norm_num,
    float_decode_words_spec 0 16256 (by norm_num) (by norm_num)⟩

/-- Claim C2: float encode splits the 32-bit IEEE-754 pattern of a finite
float into `[high16, low16]` (write order), and decoding that pair after
swapping it into the low-word-first read order recovers the float exactly,
for every finite binary32 pattern. -/
theorem float_encode_decode_roundtrip (c : Nat) (hlt : c < 2 ^ 32)
    (hfin : isNanOrInf c = false) :
    encode_float c = [c >>> 16, c % 2 ^ 16]
    ∧ decode_float_words [c % 2 ^ 16, c >>> 16] = some (b32toRat c) := by
  constructor
  · simp only [encode_float, and_ffff_eq_mod]
    rw [Nat.mod_eq_of_lt (shiftRight16_lt c hlt)]
  · simp only [decode_float_words, combineWords_split c]
    rw [if_neg (Nat.not_le.mpr hlt)]
    simp [hfin]

/-- Witness for C2 at the pattern of `1.0` (`c = 0x3F800000`). -/
theorem float_encode_decode_roundtrip_witness :
    (0x3F800000 : Nat) < 2 ^ 32 ∧ isNanOrInf 0x3F800000 = false
    ∧ (encode_float 0x3F800000 = [0x3F800000 >>> 16, 0x3F800000 % 2 ^ 16]
      ∧ decode_float_words [0x3F800000 % 2 ^ 16, 0x3F800000 >>> 16]
          = some (b32toRat 0x3F800000)) :=
  ⟨by norm_num, by decide,
    float_encode_decode_roundtrip 0x3F800000 (by norm_num) (by decide)⟩

/-! ## Claims about the write accessors -/

/-- The write accessor the platform adapters invoke for a register, chosen
by its data type exactly as `number.py` (and `switch.py`/`services.py` for
`WORD`) do: `FLOAT → write_float`, `UCHAR → write_uchar`, otherwise
`write_uint16`. -/
def writeDispatch (reg : RegisterDefinition) (v : ℚ) : WriteOutcome :=
  match reg.data_type with
  | DataType.FLOAT => write_float reg v
  | DataType.UCHAR => write_uchar reg v
  | _ => write_uint16 reg v

/-- Both declared bounds of a register, when present, fit in a byte. -/
def byteBounds (reg : RegisterDefinition) : Bool :=
  (match reg.min_value with | some a => decide (a ≤ 255) | none => true)
  && (match reg.max_value with | some b => decide (b ≤ 255) | none => true)

/-- The declared bounds of a register, when both present, are ordered. -/
def boundsOrdered (reg : RegisterDefinition) : Bool :=
  match reg.min_value, reg.max_value with
  | some a, some b => decide (a ≤ b)
  | _, _ => true

/-- Facts about every catalog entry used by the write-path claims: no entry
is `INT`-typed, bounds are ordered, and `UCHAR` entries have byte-sized
bounds. -/
lemma catalog_entry_facts : ∀ p ∈ REGISTERS,
    p.2.data_type ≠ DataType.INT ∧ boundsOrdered p.2 = true
    ∧ (p.2.data_type = DataType.UCHAR → byteBounds p.2 = true) := by decide

lemma clampBounds_of_lt_min (mn mx v : ℚ) (hord : mn ≤ mx) (h : v < mn) :
    clampBounds (some mn) (some mx) v = mn := by
  simp [clampBounds, h, not_lt.mpr hord]

lemma clampBounds_of_gt_max (mn mx v : ℚ) (hord : mn ≤ mx) (h : mx < v) :
    clampBounds (some mn) (some mx) v = mx := by
  have : ¬ v < mn := not_lt.mpr (le_of_lt (lt_of_le_of_lt hord h))
  simp [clampBounds, this, h]

lemma clampBounds_of_mem (mn mx v : ℚ) (h1 : mn ≤ v) (h2 : v ≤ mx) :
    clampBounds (some mn) (some mx) v = v := by
  simp [clampBounds, not_lt.mpr h1, not_lt.mpr h2]

/-- The clamped value stays within a byte when the input and both bounds
do. -/
lemma clampBounds_le_255 (mn mx v : ℚ) (hmn : mn ≤ 255) (hmx : mx ≤ 255)
    (hv : v ≤ 255) : clampBounds (some mn) (some mx) v ≤ 255 := by
  simp only [clampBounds]
  split <;> split <;> assumption

/-- Claim C3: for every writable catalog register with both bounds defined,
a write is never rejected: an input below the minimum writes the minimum,
one above the maximum writes the maximum, and an in-bounds input is written
unchanged.  In particular for a `UCHAR` register the 8-bit mask is applied
only after clamping, so an input of `300` against bounds `[35, 95]` writes
`95`, never `300 & 0xFF = 44`. -/
theorem write_bounds_clamped :
    ∀ key reg, (key, reg) ∈ REGISTERS → reg.access_type = AccessType.RW →
    ∀ mn mx, reg.min_value = some mn → reg.max_value = some mx →
    ∀ v : ℚ,
      (v < mn → writeDispatch reg v = WriteOutcome.written mn)
      ∧ (mx < v → writeDispatch reg v = WriteOutcome.written mx)
      ∧ (mn ≤ v → v ≤ mx → writeDispatch reg v = WriteOutcome.written v) := by
  intro key reg hmem hrw mn mx hmn hmx v
  obtain ⟨hint, hordb, hbyte⟩ := catalog_entry_facts (key, reg) hmem
  have hord : mn ≤ mx := by
    simp only [boundsOrdered, hmn, hmx] at hordb
    exact of_decide_eq_true hordb
  have main : ∀ w : ℚ,
      clampBounds reg.min_value reg.max_value v = w →
      (reg.data_type = DataType.UCHAR → w ≤ 255) →
      writeDispatch reg v = WriteOutcome.written w := by
    intro w hw hw255
    cases hdt : reg.data_type with
    | INT => exact absurd hdt hint
    | FLOAT =>
      simp [writeDispatch, hdt, write_float, hrw, hw,
        show ¬ (DataType.FLOAT ≠ DataType.FLOAT) by simp]
    | WORD =>
      simp only [writeDispatch, hdt, write_uint16]
      rw [if_neg (by simp), if_neg (by simp [hrw])]
      rw [if_neg (by simp), hw]
    | UCHAR =>
      simp only [writeDispatch, hdt, write_uchar]
      rw [if_neg (by simp), if_neg (by simp [hrw]), hw]
      rw [if_neg (not_lt.mpr (hw255 hdt))]
  refine ⟨?_, ?_, ?_⟩
  · intro h
    refine main mn ?_ ?_
    · rw [hmn, hmx]; exact clampBounds_of_lt_min mn mx v hord h
    · intro hdt
      have hb := hbyte hdt
      simp only [byteBounds, hmn, hmx, Bool.and_eq_true, decide_eq_true_eq] at hb
      exact hb.1
  · intro h
    refine main mx ?_ ?_
    · rw [hmn, hmx]; exact clampBounds_of_gt_max mn mx v hord h
    · intro hdt
      have hb := hbyte hdt
      simp only [byteBounds, hmn, hmx, Bool.and_eq_true, decide_eq_true_eq] at hb
      exact hb.2
  · intro h1 h2
    refine main v ?_ ?_
    · rw [hmn, hmx]; exact clampBounds_of_mem mn mx v h1 h2
    · intro hdt
      have hb := hbyte hdt
      simp only [byteBounds, hmn, hmx, Bool.and_eq_true, decide_eq_true_eq] at hb
      exact le_trans h2 hb.2

/-- Witness for C3: the catalog's `dhw_target_temp` (`UCHAR`, bounds
`[35, 95]`) written with `300` produces `95`. -/
theorem write_bounds_clamped_witness :
    ("dhw_target_temp",
      ({ address := 1032, data_type := .UCHAR, access_type := .RW,
         min_value := some 35, max_value := some 95,
         state_class := some .measurement } : RegisterDefinition)) ∈ REGISTERS
    ∧ (95 : ℚ) < 300
    ∧ writeDispatch
        { address := 1032, data_type := .UCHAR, access_type := .RW,
          min_value := some 35, max_value := some 95,
          state_class := some .measurement } 300 = WriteOutcome.written 95 :=
  ⟨by decide, by norm_num,
    (write_bounds_clamped "dhw_target_temp" _ (by decide) rfl 35 95 rfl rfl 300).2.1
      (by norm_num)⟩

/-- Claim C10: on the number-entity write path for a writable bounded
`UCHAR` catalog register, the requested value is masked to 8 bits *before*
the accessor clamps, so the written word is
`clamp(min, max, int(v) & 0xFF)`; in particular a request of `300` on
`dhw_target_temp` (bounds `[35, 95]`) writes `44 = 300 & 0xFF`, not `95`. -/
theorem uchar_number_masks_before_clamp :
    ∀ key reg, (key, reg) ∈ REGISTERS → reg.data_type = DataType.UCHAR →
    reg.access_type = AccessType.RW →
    ∀ mn mx, reg.min_value = some mn → reg.max_value = some mx →
    ∀ v : ℚ,
      ucharNumberSetValue reg v
        = WriteOutcome.written (clampBounds (some mn) (some mx) (mkRat (pyInt v % 256) 1))
      ∧ (lookupKey REGISTERS "dhw_target_temp").map (fun r => ucharNumberSetValue r 300)
        = some (WriteOutcome.written 44) := by
  intro key reg hmem hdt hrw mn mx hmn hmx v
  obtain ⟨_, _, hbyte⟩ := catalog_entry_facts (key, reg) hmem
  have hb := hbyte hdt
  simp only [byteBounds, hmn, hmx, Bool.and_eq_true, decide_eq_true_eq] at hb
  constructor
  · have hmle : (mkRat (pyInt v % 256) 1 : ℚ) ≤ 255 := by
      rw [Rat.mkRat_one]
      have : pyInt v % 256 ≤ 255 := by omega
      exact_mod_cast this
    have hcl : clampBounds (some mn) (some mx) (mkRat (pyInt v % 256) 1) ≤ 255 :=
      clampBounds_le_255 mn mx _ hb.1 hb.2 hmle
    simp only [ucharNumberSetValue, write_uchar, hdt, hrw, hmn, hmx]
    rw [if_neg (by simp), if_neg (by simp)]
    rw [if_neg (not_lt.mpr hcl)]
  · decide

/-- Witness for C10: requesting `300` on `dhw_target_temp` writes `44`. -/
theorem uchar_number_masks_before_clamp_witness :
    ("dhw_target_temp",
      ({ address := 1032, data_type := .UCHAR, access_type := .RW,
         min_value := some 35, max_value := some 95,
         state_class := some .measurement } : RegisterDefinition)) ∈ REGISTERS
    ∧ (ucharNumberSetValue
          { address := 1032, data_type := .UCHAR, access_type := .RW,
            min_value := some 35, max_value := some 95,
            state_class := some .measurement } 300
        = WriteOutcome.written (clampBounds (some 35) (some 95) (mkRat (pyInt 300 % 256) 1))
      ∧ (lookupKey REGISTERS "dhw_target_temp").map (fun r => ucharNumberSetValue r 300)
        = some (WriteOutcome.written 44)) :=
  ⟨by decide,
    uchar_number_masks_before_clamp "dhw_target_temp" _ (by decide) rfl rfl 35 95
      rfl rfl 300⟩

/-! ## Claims about the poll cycle -/

/-- Claim C5: in the snapshot pipeline a decoded `FLOAT` value of exactly
`-1` is suppressed to unavailable precisely when the register's
`min_value` is defined and non-negative; with no declared minimum, or a
minimum permitting negatives, every decoded value (including `-1`) passes
through unchanged. -/
theorem float_sentinel_spec (reg : RegisterDefinition) (x : ℚ) :
    (applyFloatSentinel reg (some x) = none
      ↔ x = -1 ∧ ∃ m, reg.min_value = some m ∧ 0 ≤ m)
    ∧ applyFloatSentinel reg none = none
    ∧ (reg.min_value = none → applyFloatSentinel reg (some x) = some x)
    ∧ (∀ m, reg.min_value = some m → m < 0 → applyFloatSentinel reg (some x) = some x) := by
  have hnn : nonnegMin reg = true ↔ ∃ m, reg.min_value = some m ∧ 0 ≤ m := by
    cases h : reg.min_value with
    | none => simp [nonnegMin, h]
    | some m => simp [nonnegMin, h]
  refine ⟨?_, rfl, ?_, ?_⟩
  · simp only [applyFloatSentinel]
    constructor
    · intro h
      by_cases hc : x = -1 ∧ nonnegMin reg = true
      · exact ⟨hc.1, hnn.mp hc.2⟩
      · rw [if_neg hc] at h; cases h
    · intro ⟨h1, h2⟩
      rw [if_pos ⟨h1, hnn.mpr h2⟩]
  · intro h
    simp [applyFloatSentinel, nonnegMin, h]
  · intro m h hneg
    simp [applyFloatSentinel, nonnegMin, h, not_le.mpr hneg]

/-- Witness for C5: `-1` on `energy_total` (minimum `0`) is suppressed,
while `-1` on `outside_temp` (minimum `-50`) passes through. -/
theorem float_sentinel_spec_witness :
    applyFloatSentinel
      { address := 1750, data_type := .FLOAT, access_type := .RO,
        min_value := some 0, max_value := some 1000000,
        state_class := some .total_increasing } (some (-1)) = none
    ∧ applyFloatSentinel
        { address := 1000, data_type := .FLOAT, access_type := .RO,
          min_value := some (-50), max_value := some 50,
          state_class := some .measurement } (some (-1)) = some (-1) :=
  ⟨(float_sentinel_spec _ (-1)).1.mpr ⟨rfl, 0, rfl, le_refl 0⟩,
    (float_sentinel_spec _ (-1)).2.2.2 (-50) rfl (by norm_num)⟩

/-- Claim C8: the derived operating mode maps system mode `0` (standby) to
`off` regardless of activity; in system modes `1` (automatic) and `5`
(heating/cooling only) activity `1` yields `heat`, activity `2` yields
`cool`, and any other activity yields `auto`; every other system-mode
reading — including an absent one — yields `off`. -/
theorem hvac_mode_derivation (sm hpm : Option ℚ) :
    deriveHvacMode (some 0) hpm = HMode.off
    ∧ ((sm = some 1 ∨ sm = some 5) →
        (hpm = some 1 → deriveHvacMode sm hpm = HMode.heat)
        ∧ (hpm = some 2 → deriveHvacMode sm hpm = HMode.cool)
        ∧ (hpm ≠ some 1 → hpm ≠ some 2 → deriveHvacMode sm hpm = HMode.auto))
    ∧ (sm ≠ some 0 → sm ≠ some 1 → sm ≠ some 5 → deriveHvacMode sm hpm = HMode.off)
    ∧ deriveHvacMode none hpm = HMode.off := by
  refine ⟨by simp [deriveHvacMode], ?_, ?_, by simp [deriveHvacMode]⟩
  · rintro (rfl | rfl)
    · have h0 : (some (1 : ℚ)) ≠ some 0 := by norm_num
      refine ⟨?_, ?_, ?_⟩
      · rintro rfl; simp [deriveHvacMode, h0]
      · rintro rfl
        have h12 : (some (2 : ℚ)) ≠ some 1 := by norm_num
        simp [deriveHvacMode, h0, h12]
      · intro hn1 hn2; simp [deriveHvacMode, h0, hn1, hn2]
    · have h0 : (some (5 : ℚ)) ≠ some 0 := by norm_num
      have h1 : (some (5 : ℚ)) ≠ some 1 := by norm_num
      refine ⟨?_, ?_, ?_⟩
      · rintro rfl; simp [deriveHvacMode, h0, h1]
      · rintro rfl
        have h12 : (some (2 : ℚ)) ≠ some 1 := by norm_num
        simp [deriveHvacMode, h0, h1, h12]
      · intro hn1 hn2; simp [deriveHvacMode, h0, h1, hn1, hn2]
  · intro h0 h1 h5
    simp [deriveHvacMode, h0, h1, h5]

/-- Witness for C8: standby with no activity is `off`; automatic with
heating activity is `heat`. -/
theorem hvac_mode_derivation_witness :
    deriveHvacMode (some 0) none = HMode.off
    ∧ deriveHvacMode (some 1) (some 1) = HMode.heat :=
  ⟨(hvac_mode_derivation (some 0) none).1,
    ((hvac_mode_derivation (some 1) (some 1)).2.1 (Or.inl rfl)).1 rfl⟩

/-- Equality of `Except` results is decidable when it is for both
components. -/
instance instDecidableEqExcept {e a : Type} [DecidableEq e] [DecidableEq a] :
    DecidableEq (Except e a)
  | .error x, .error y =>
    if h : x = y then .isTrue (by rw [h]) else .isFalse (by simp [h])
  | .error _, .ok _ => .isFalse (by simp)
  | .ok _, .error _ => .isFalse (by simp)
  | .ok x, .ok y =>
    if h : x = y then .isTrue (by rw [h]) else .isFalse (by simp [h])

/-- The behaviour of `fetchStep` when every bus transaction fails: `FLOAT`
and `WORD` entries record `None`, a `UCHAR` entry raises (`None & 0xFF`),
`INT` is skipped. -/
def fetchStepFail (acc : Except Unit Snapshot)
    (kv : String × RegisterDefinition) : Except Unit Snapshot :=
  match acc with
  | .error e => .error e
  | .ok data =>
    match kv.2.data_type with
    | .FLOAT => .ok (data ++ [(kv.1, none)])
    | .WORD => .ok (data ++ [(kv.1, none)])
    | .UCHAR => .error ()
    | .INT => .ok data

lemma fetchStep_of_allFail (bus : Bus) (h : ∀ a c, bus a c = none)
    (acc : Except Unit Snapshot) (kv : String × RegisterDefinition) :
    fetchStep bus acc kv = fetchStepFail acc kv := by
  cases acc with
  | error e => rfl
  | ok data =>
    cases hdt : kv.2.data_type <;>
      simp [fetchStep, fetchStepFail, hdt, read_float_by_address,
        read_uint16_by_address, h, applyFloatSentinel, applyWordSentinel]

/-- Claim C9: a poll cycle against a device on which every bus transaction
fails (the connection is rejected) produces the empty snapshot; since
`fetch_data` is a total function whose every exception path ends in the
cycle-wide handler, nothing propagates past the poll boundary. -/
theorem unreachable_connection_empty_snapshot (bus : Bus)
    (h : ∀ a c, bus a c = none) : fetch_data bus = [] := by
  have hloop : fetchLoop bus = REGISTERS.foldl fetchStepFail (.ok []) :=
    List.foldl_ext _ _ _ (fun acc kv _ => fetchStep_of_allFail bus h acc kv)
  have hfail : REGISTERS.foldl fetchStepFail (.ok []) = .error () := by decide
  unfold fetch_data
  rw [hloop, hfail]

/-- Witness for C9: the always-failing bus. -/
theorem unreachable_connection_empty_snapshot_witness :
    fetch_data (fun _ _ => none) = [] :=
  unreachable_connection_empty_snapshot (fun _ _ => none) (fun _ _ => rfl)

/-- A bus on which only the one-word read at address `1032` — the `UCHAR`
register `dhw_target_temp` — fails; every other read succeeds (floats
decode to `1.0`, words read `1`). -/
def busUCharReadFails : Bus := fun a c =>
  if a = 1032 then none
  else if c = 2 then some [0, 16256] else some [1]

/-- The same bus with the read at `1032` also succeeding. -/
def busAllReadsSucceed : Bus := fun _ c =>
  if c = 2 then some [0, 16256] else some [1]

/-- Claim C4 (code bug): a failing read of the single `UCHAR` register
`dhw_target_temp` does not merely mark that key unavailable — the `UCHAR`
branch of `_fetch_data` evaluates `None & 0xFF`, raising a `TypeError`
that the cycle-wide handler turns into an empty snapshot, so every other
register's value (present under the same bus behaviour when `1032`
succeeds, e.g. `outside_temp = 1.0`) is lost as well. -/
theorem uchar_read_failure_empties_snapshot :
    (lookupKey REGISTERS "dhw_target_temp").map
        (fun r => (r.address, r.data_type)) = some (1032, DataType.UCHAR)
    ∧ busUCharReadFails 1032 1 = none
    ∧ fetchLoop busUCharReadFails = Except.error ()
    ∧ fetch_data busUCharReadFails = []
    ∧ lookupKey (fetch_data busAllReadsSucceed) "outside_temp"
        = some (some (Value.num 1))
    ∧ lookupKey (fetch_data busUCharReadFails) "outside_temp" = none := by
  refine ⟨by decide, rfl, by decide, by decide, by decide, by decide⟩

/-! ## The negative-energy clamp (C6) -/

lemma lookupKey_cons {α : Type} (a : String) (b : α) (t : List (String × α)) (k : String) :
    lookupKey ((a, b) :: t) k = if k = a then some b else lookupKey t k := rfl

lemma lookupKey_setKey (d : Snapshot) (k' : String) (v : Option Value) (k : String) :
    lookupKey (setKey d k' v) k
      = if k = k' then (lookupKey d k).map (fun _ => v) else lookupKey d k := by
  induction d with
  | nil =>
    by_cases h : k = k' <;> simp [setKey, lookupKey, h]
  | cons p t ih =>
    obtain ⟨a, b⟩ := p
    have hcons : setKey ((a, b) :: t) k' v
        = (if a = k' then (a, v) else (a, b)) :: setKey t k' v := rfl
    rw [hcons, lookupKey_cons a b t k]
    by_cases hak : a = k'
    · rw [if_pos hak, lookupKey_cons a v (setKey t k' v) k]
      by_cases hka : k = a
      · have hkk' : k = k' := hka.trans hak
        rw [if_pos hka, if_pos hkk', if_pos hka]
        rfl
      · have hkk' : k ≠ k' := fun h => hka (h.trans hak.symm)
        rw [if_neg hka, ih, if_neg hkk', if_neg hkk', if_neg hka]
    · rw [if_neg hak, lookupKey_cons a b (setKey t k' v) k]
      by_cases hka : k = a
      · have hkk' : k ≠ k' := fun h => hak ((hka.symm.trans h) ▸ rfl)
        rw [if_pos hka, if_neg hkk', if_pos hka]
      · rw [if_neg hka, ih]
        by_cases hkk' : k = k'
        · rw [if_pos hkk', if_pos hkk', if_neg hka]
        · rw [if_neg hkk', if_neg hkk', if_neg hka]

lemma lookupKey_clampOne (d : Snapshot) (k' k : String) :
    lookupKey (clampOne d k') k
      = if k = k' then
          (match lookupKey d k with
            | some (some (Value.num q)) =>
                some (some (Value.num (if q < 0 then 0 else q)))
            | o => o)
        else lookupKey d k := by
  by_cases hk : k = k'
  · subst hk
    simp only [clampOne, if_pos rfl]
    match h : lookupKey d k with
    | none => simp [h]
    | some none => simp [h]
    | some (some (Value.label s)) => simp [h]
    | some (some (Value.act a)) => simp [h]
    | some (some (Value.mode m)) => simp [h]
    | some (some (Value.num q)) =>
      by_cases hq : q < 0
      · simp only [h, if_pos hq, lookupKey_setKey, Option.map_some]
        simp [hq]
      · simp [h, hq]
  · simp only [clampOne, if_neg hk]
    match h : lookupKey d k' with
    | none => rfl
    | some none => rfl
    | some (some (Value.label s)) => rfl
    | some (some (Value.act a)) => rfl
    | some (some (Value.mode m)) => rfl
    | some (some (Value.num q)) =>
      by_cases hq : q < 0
      · simp only [if_pos hq, lookupKey_setKey, if_neg hk]
      · simp [hq]

/-- A key already clamped to `0` stays `0` through the rest of the clamp
loop. -/
lemma foldl_clampOne_preserves_zero :
    ∀ (ks : List String) (d : Snapshot) (k : String),
    lookupKey d k = some (some (Value.num 0)) →
    lookupKey (ks.foldl clampOne d) k = some (some (Value.num 0)) := by
  intro ks
  induction ks with
  | nil => intro d k h; exact h
  | cons k0 t ih =>
    intro d k h
    simp only [List.foldl_cons]
    apply ih
    rw [lookupKey_clampOne]
    by_cases hk : k = k0
    · rw [if_pos hk, h]
      simp
    · rw [if_neg hk]; exact h

lemma foldl_clampOne_mem :
    ∀ (ks : List String) (d : Snapshot) (k : String) (q : ℚ),
    k ∈ ks → lookupKey d k = some (some (Value.num q)) → q < 0 →
    lookupKey (ks.foldl clampOne d) k = some (some (Value.num 0)) := by
  intro ks
  induction ks with
  | nil => intro d k q hmem; cases hmem
  | cons k0 t ih =>
    intro d k q hmem hq hneg
    simp only [List.foldl_cons]
    by_cases hk : k = k0
    · apply foldl_clampOne_preserves_zero
      rw [lookupKey_clampOne, if_pos hk, hq]
      simp [hneg]
    · rcases List.mem_cons.mp hmem with h | h
      · exact absurd h hk
      · refine ih (clampOne d k0) k q h ?_ hneg
        rw [lookupKey_clampOne, if_neg hk]
        exact hq

lemma foldl_clampOne_notmem :
    ∀ (ks : List String) (d : Snapshot) (k : String),
    k ∉ ks → lookupKey (ks.foldl clampOne d) k = lookupKey d k := by
  intro ks
  induction ks with
  | nil => intro d k _; rfl
  | cons k0 t ih =>
    intro d k hmem
    have hk : k ≠ k0 := fun h => hmem (h ▸ List.mem_cons_self k0 t)
    have ht : k ∉ t := fun h => hmem (List.mem_cons_of_mem k0 h)
    simp only [List.foldl_cons]
    rw [ih (clampOne d k0) k ht, lookupKey_clampOne, if_neg hk]

/-- A bus on which the float register at address `1760` (`solar_energy`)
decodes to `-5.0` (words `[0x0000, 0xC0A0]`), every other float decodes to
`1.0`, and every word read returns `1`. -/
def busSolarNegative : Bus := fun a c =>
  if a = 1760 then some [0, 49312]
  else if c = 2 then some [0, 16256] else some [1]

/-- Counterexample to C6 as stated: `solar_energy` is tagged
`TOTAL_INCREASING` in the catalog, yet a poll decoding it to `-5` publishes
`-5` — it is not coerced to `0`, because the safety check runs over a
hard-coded five-key list that omits it. -/
theorem total_increasing_not_all_clamped :
    (lookupKey REGISTERS "solar_energy").map RegisterDefinition.state_class
      = some (some StateClass.total_increasing)
    ∧ lookupKey (fetch_data busSolarNegative) "solar_energy"
      = some (some (Value.num (-5)))
    ∧ "solar_energy" ∉ energyClampKeys := by
  refine ⟨by decide, by decide, by decide⟩

/-- Claim C6 as amended: the negative-to-zero coercion applies exactly to
the five hard-coded keys `energy_heating`, `energy_cooling`, `energy_dhw`,
`energy_total`, `energy_meter_total`: any of those holding a negative value
of any magnitude is forced to `0`, and every other key — including the
other `TOTAL_INCREASING` registers such as `solar_energy` — is left
untouched by the clamp step. -/
theorem energy_clamp_exactly_five :
    (∀ (d : Snapshot) (k : String) (q : ℚ), k ∈ energyClampKeys →
      lookupKey d k = some (some (Value.num q)) → q < 0 →
      lookupKey (applyEnergyClamp d) k = some (some (Value.num 0)))
    ∧ (∀ (d : Snapshot) (k : String), k ∉ energyClampKeys →
      lookupKey (applyEnergyClamp d) k = lookupKey d k) :=
  ⟨fun d k q hmem hq hneg => foldl_clampOne_mem energyClampKeys d k q hmem hq hneg,
   fun d k hmem => foldl_clampOne_notmem energyClampKeys d k hmem⟩

/-- Witness for the amended C6: `energy_total = -3` is clamped to `0` while
`solar_energy = -5` in the same snapshot is untouched. -/
theorem energy_clamp_exactly_five_witness :
    lookupKey (applyEnergyClamp
        [("energy_total", some (Value.num (-3))),
         ("solar_energy", some (Value.num (-5)))]) "energy_total"
      = some (some (Value.num 0))
    ∧ lookupKey (applyEnergyClamp
        [("energy_total", some (Value.num (-3))),
         ("solar_energy", some (Value.num (-5)))]) "solar_energy"
      = some (some (Value.num (-5))) :=
  ⟨energy_clamp_exactly_five.1
      [("energy_total", some (Value.num (-3))),
       ("solar_energy", some (Value.num (-5)))]
      "energy_total" (-3) (by decide) (by decide) (by norm_num),
   (energy_clamp_exactly_five.2
      [("energy_total", some (Value.num (-3))),
       ("solar_energy", some (Value.num (-5)))]
      "solar_energy" (by decide)).trans (by decide)⟩

/-! ## The catalog address-overlap invariant (C7) -/

/-- Number of consecutive bus addresses a register occupies: two for a
`FLOAT` (read with `count=2`), one otherwise. -/
def registerSpan (dt : DataType) : Nat :=
  match dt with
  | DataType.FLOAT => 2
  | _ => 1

/-- The address ranges of two registers are disjoint. -/
def rangesDisjoint (r s : RegisterDefinition) : Prop :=
  r.address + registerSpan r.data_type ≤ s.address
  ∨ s.address + registerSpan s.data_type ≤ r.address

instance (r s : RegisterDefinition) : Decidable (rangesDisjoint r s) := by
  unfold rangesDisjoint; infer_instance

/-- Counterexample to C7 as stated: the catalog contains overlapping
entries — `humidity` is a `FLOAT` at `1392` occupying addresses
`1392-1393`, while `heating_circuit_mode` is a `WORD` at `1393`. -/
theorem catalog_addresses_overlap :
    ¬ (∀ p ∈ REGISTERS, ∀ q ∈ REGISTERS, p.1 ≠ q.1 → rangesDisjoint p.2 q.2)
    ∧ (lookupKey REGISTERS "humidity").map (fun r => (r.address, r.data_type))
      = some (1392, DataType.FLOAT)
    ∧ (lookupKey REGISTERS "heating_circuit_mode").map
        (fun r => (r.address, r.data_type)) = some (1393, DataType.WORD) := by
  refine ⟨by decide, by decide, by decide⟩

/-- Claim C7 as amended: every catalog entry has a distinct address (so the
`(address, data_type)` pairs are distinct), and the occupied address ranges
of any two distinct entries are disjoint **except** for exactly two
overlapping pairs: `humidity` (`FLOAT` at `1392-1393`) with
`heating_circuit_mode` (`WORD` at `1393`), and `target_temp_heating`
(`FLOAT` at `1694-1695`) with `target_temp_cooling` (`WORD` at `1695`). -/
theorem catalog_overlap_only_known_pairs :
    (∀ p ∈ REGISTERS, ∀ q ∈ REGISTERS, p.1 ≠ q.1 → p.2.address ≠ q.2.address)
    ∧ (∀ p ∈ REGISTERS, ∀ q ∈ REGISTERS, p.1 ≠ q.1 →
        (rangesDisjoint p.2 q.2
          ∨ (p.1 = "humidity" ∧ q.1 = "heating_circuit_mode")
          ∨ (p.1 = "heating_circuit_mode" ∧ q.1 = "humidity")
          ∨ (p.1 = "target_temp_heating" ∧ q.1 = "target_temp_cooling")
          ∨ (p.1 = "target_temp_cooling" ∧ q.1 = "target_temp_heating"))) := by
  refine ⟨by decide, by decide⟩

/-- Witness for the amended C7 at the pair
(`outside_temp`, `outside_temp_averaged`). -/
theorem catalog_overlap_only_known_pairs_witness :
    ("outside_temp",
      ({ address := 1000, data_type := .FLOAT, access_type := .RO,
         min_value := some (-50), max_value := some 50,
         state_class := some .measurement } : RegisterDefinition)) ∈ REGISTERS
    ∧ ("outside_temp_averaged",
      ({ address := 1002, data_type := .FLOAT, access_type := .RO,
         min_value := some (-50), max_value := some 50,
         state_class := some .measurement } : RegisterDefinition)) ∈ REGISTERS
    ∧ (1000 : Nat) ≠ 1002 :=
  ⟨by decide, by decide,
    catalog_overlap_only_known_pairs.1
      ("outside_temp",
        { address := 1000, data_type := .FLOAT, access_type := .RO,
          min_value := some (-50), max_value := some 50,
          state_class := some .measurement }) (by decide)
      ("outside_temp_averaged",
        { address := 1002, data_type := .FLOAT, access_type := .RO,
          min_value := some (-50), max_value := some 50,
          state_class := some .measurement }) (by decide) (by decide)⟩

end IdmHeatpump
